import Mathlib

/-!
Shallow embedding of the configuration-profile slice of the
databricks-app-template repository: the relational profile store
(src/database/models), the profile and config services
(src/services/profile_service.py, src/services/config_service.py),
the serving-boundary request schemas (src/api/schemas/settings/requests.py),
the settings loader and cache (src/core/settings_db.py) and the chat
service reload handler (src/api/services/chat_service.py).

Stateful code is embedded as explicit state passing over a `Store` record;
fallible code returns `Except PyErr`.  A service call that raises before
`commit` leaves the database unchanged (the session is rolled back /
discarded), which the embedding captures by having callers keep the old
store when an operation returns `.error`.
-/

namespace DBApp

/-- A JSON-ish value as it appears in a history `changes` map. -/
inductive ChangeVal where
  | vs (s : String)
  | vq (q : Rat)
  | vi (n : Int)
  | vb (b : Bool)
  | vnull
deriving DecidableEq, Repr

/-- Row of `config_profiles` (src/database/models/profile.py). -/
structure Profile where
  id : Int
  name : String
  description : Option String
  isDefault : Bool
  createdBy : String
  updatedBy : String
deriving DecidableEq, Repr

/-- Row of `config_ai_infra` (src/database/models/ai_infra.py); the
DECIMAL(3,2) temperature is embedded as an exact rational. -/
structure AIInfra where
  profileId : Int
  llmEndpoint : String
  llmTemperature : Rat
  llmMaxTokens : Int
deriving DecidableEq, Repr

/-- Row of `config_mlflow` (src/database/models/mlflow.py). -/
structure MLflowCfg where
  profileId : Int
  experimentName : String
deriving DecidableEq, Repr

/-- Row of `config_prompts` (src/database/models/prompts.py).  Note the
table has no `slide_editing_instructions` column. -/
structure PromptsCfg where
  profileId : Int
  systemPrompt : String
  userPromptTemplate : String
deriving DecidableEq, Repr

/-- Row of `config_history` (src/database/models/history.py). -/
structure HistoryEntry where
  profileId : Int
  domain : String
  action : String
  changedBy : String
  changes : List (String × ChangeVal × ChangeVal)
deriving DecidableEq, Repr

/-- The relational store: one list per table plus the id sequence for
`config_profiles` (Postgres sequences never reuse ids). -/
structure Store where
  profiles : List Profile
  aiInfras : List AIInfra
  mlflows : List MLflowCfg
  promptsCfgs : List PromptsCfg
  history : List HistoryEntry
  nextProfileId : Int
deriving DecidableEq, Repr

def emptyStore : Store := ⟨[], [], [], [], [], 1⟩

/-- The Python exceptions the embedded slice can raise. -/
inductive PyErr where
  | valueError (msg : String)
  | integrityError
  | attributeError
deriving DecidableEq, Repr

instance {ε α : Type} [DecidableEq ε] [DecidableEq α] :
    DecidableEq (Except ε α) := fun x y =>
  match x, y with
  | .ok a, .ok b =>
    match decEq a b with
    | isTrue h => isTrue (by rw [h])
    | isFalse h => isFalse (by intro hh; cases hh; exact h rfl)
  | .ok _, .error _ => isFalse (by intro hh; cases hh)
  | .error _, .ok _ => isFalse (by intro hh; cases hh)
  | .error a, .error b =>
    match decEq a b with
    | isTrue h => isTrue (by rw [h])
    | isFalse h => isFalse (by intro hh; cases hh; exact h rfl)

/-- `db.query(ConfigProfile).filter(ConfigProfile.id == profile_id).first()`. -/
def findProfile (s : Store) (pid : Int) : Option Profile :=
  s.profiles.find? (fun p => p.id == pid)

/-- `db.query(ConfigProfile).filter(ConfigProfile.is_default == True).first()`. -/
def findDefaultProfile (s : Store) : Option Profile :=
  s.profiles.find? (fun p => p.isDefault)

def findAIInfra (s : Store) (pid : Int) : Option AIInfra :=
  s.aiInfras.find? (fun c => c.profileId == pid)

def findMLflow (s : Store) (pid : Int) : Option MLflowCfg :=
  s.mlflows.find? (fun c => c.profileId == pid)

def findPrompts (s : Store) (pid : Int) : Option PromptsCfg :=
  s.promptsCfgs.find? (fun c => c.profileId == pid)

/-- Number of profiles whose `is_default` flag is set. -/
def countDefault (s : Store) : Nat :=
  s.profiles.countP (fun p => p.isDefault)

/-- Python truthiness of an `Optional[int]`: `None` and `0` are falsy. -/
def truthyId : Option Int → Bool
  | none => false
  | some n => n != 0

/-- Python truthiness of an `Optional[str]`: `None` and `""` are falsy. -/
def truthyStr : Option String → Bool
  | none => false
  | some v => v != ""

/-! ### Static defaults (src/core/defaults.py, DEFAULT_CONFIG) -/

def defaultLLMEndpoint : String := "databricks-claude-sonnet-4-5"

def defaultLLMTemperature : Rat := 7 / 10

def defaultLLMMaxTokens : Int := 2048

def defaultExperimentName : String :=
  "/Workspace/Users/{username}/chat-template-experiments"

def defaultSystemPrompt : String :=
  "You are a helpful AI assistant powered by Databricks. You provide clear, accurate, and concise responses to user questions.\n\nFormat your responses using markdown for better readability:\n- Use **bold** for emphasis\n- Use bullet points for lists\n- Use code blocks with syntax highlighting for code snippets\n- Use headings to organize longer responses\n\nBe friendly, professional, and helpful. If you don't know something, admit it rather than making up information."

def defaultUserPromptTemplate : String := "{question}"

/-! ### ProfileService (src/services/profile_service.py) -/

/-- The profile row inserted by `create_profile`: default exactly when no
default profile exists yet. -/
def mkNewProfile (s : Store) (name : String) (description : Option String)
    (user : String) : Profile :=
  { id := s.nextProfileId, name := name, description := description,
    isDefault := !(s.profiles.any fun p => p.isDefault),
    createdBy := user, updatedBy := user }

def mkCreateHistory (pid : Int) (name user : String) : HistoryEntry :=
  { profileId := pid, domain := "profile", action := "create", changedBy := user,
    changes := [("name", ChangeVal.vnull, ChangeVal.vs name)] }

/-- Sub-config rows cloned from a source profile. -/
def cloneSubConfigs (pid : Int) (a : AIInfra) (m : MLflowCfg) (p : PromptsCfg) :
    AIInfra × MLflowCfg × PromptsCfg :=
  ({ profileId := pid, llmEndpoint := a.llmEndpoint,
     llmTemperature := a.llmTemperature, llmMaxTokens := a.llmMaxTokens },
   { profileId := pid, experimentName := m.experimentName },
   { profileId := pid, systemPrompt := p.systemPrompt,
     userPromptTemplate := p.userPromptTemplate })

/-- Sub-config rows populated from DEFAULT_CONFIG. -/
def defaultSubConfigs (pid : Int) : AIInfra × MLflowCfg × PromptsCfg :=
  ({ profileId := pid, llmEndpoint := defaultLLMEndpoint,
     llmTemperature := defaultLLMTemperature, llmMaxTokens := defaultLLMMaxTokens },
   { profileId := pid, experimentName := defaultExperimentName },
   { profileId := pid, systemPrompt := defaultSystemPrompt,
     userPromptTemplate := defaultUserPromptTemplate })

/-- `ProfileService.create_profile`.  The profile row is flushed before the
source profile is looked up, so the lookup runs against the store that
already holds the new row; `if copy_from_id:` is Python truthiness, so
`copy_from_id = 0` takes the defaults branch.  A unique-name violation
surfaces as `IntegrityError` at flush; any error before `commit` rolls the
whole transaction back (callers keep the old store). -/
def createProfile (s : Store) (name : String) (description : Option String)
    (copyFromId : Option Int) (user : String) : Except PyErr (Store × Int) :=
  let pid := s.nextProfileId
  let profile := mkNewProfile s name description user
  if s.profiles.any (fun p => p.name == name) then
    .error .integrityError
  else
    let base : Store :=
      { s with profiles := s.profiles ++ [profile], nextProfileId := pid + 1 }
    let subs : Except PyErr (AIInfra × MLflowCfg × PromptsCfg) :=
      if truthyId copyFromId then
        let cid := copyFromId.getD 0
        match findProfile base cid with
        | none => .error (.valueError s!"Source profile {cid} not found")
        | some src =>
          match findAIInfra base src.id, findMLflow base src.id,
                findPrompts base src.id with
          | some a, some m, some p => .ok (cloneSubConfigs pid a m p)
          | _, _, _ => .error .attributeError
      else
        .ok (defaultSubConfigs pid)
    match subs with
    | .error e => .error e
    | .ok (a, m, p) =>
      .ok ({ base with
              aiInfras := base.aiInfras ++ [a],
              mlflows := base.mlflows ++ [m],
              promptsCfgs := base.promptsCfgs ++ [p],
              history := base.history ++ [mkCreateHistory pid name user] }, pid)

/-- `ProfileService.update_profile`.  `if name and name != profile.name`
uses truthiness, so an empty-string name is silently skipped; a rename
colliding with another profile's unique name raises `IntegrityError` at
commit. -/
def updateProfile (s : Store) (pid : Int) (name? : Option String)
    (description? : Option String) (user : String) : Except PyErr Store :=
  match findProfile s pid with
  | none => .error (.valueError s!"Profile {pid} not found")
  | some p =>
    let nameChange := truthyStr name? && (name?.getD "" != p.name)
    let newName := if nameChange then name?.getD "" else p.name
    let descChange :=
      match description? with
      | some d => some d != p.description
      | none => false
    let changes : List (String × ChangeVal × ChangeVal) :=
      (if nameChange then [("name", ChangeVal.vs p.name, ChangeVal.vs newName)] else [])
      ++ (if descChange then
            [("description",
              match p.description with
              | none => ChangeVal.vnull
              | some d => ChangeVal.vs d,
              ChangeVal.vs (description?.getD ""))]
          else [])
    if nameChange && s.profiles.any (fun q => q.id != pid && q.name == newName) then
      .error .integrityError
    else
      let p' : Profile :=
        { p with name := newName,
                 description := if descChange then description? else p.description,
                 updatedBy := if changes.isEmpty then p.updatedBy else user }
      let hist :=
        if changes.isEmpty then s.history
        else s.history ++
          [{ profileId := pid, domain := "profile", action := "update",
             changedBy := user, changes := changes }]
      .ok { s with
              profiles := s.profiles.map (fun q => if q.id == pid then p' else q),
              history := hist }

def mkDeleteHistory (p : Profile) (user : String) : HistoryEntry :=
  { profileId := p.id, domain := "profile", action := "delete", changedBy := user,
    changes := [("name", ChangeVal.vs p.name, ChangeVal.vnull)] }

/-- `ProfileService.delete_profile` up to and including `db.flush()`: the
`profile/delete` history entry is in the store, the profile row still
present. -/
def deleteProfileFlush (s : Store) (pid : Int) (user : String) :
    Except PyErr (Store × Profile) :=
  match findProfile s pid with
  | none => .error (.valueError s!"Profile {pid} not found")
  | some p =>
    if p.isDefault then .error (.valueError "Cannot delete default profile")
    else .ok ({ s with history := s.history ++ [mkDeleteHistory p user] }, p)

/-- Cascade of `db.delete(profile)`: the FK `ondelete="CASCADE"` and the
ORM `cascade="all, delete-orphan"` remove every sub-config and history row
of the profile, including the history entry flushed just before. -/
def cascadeDelete (s : Store) (pid : Int) : Store :=
  { profiles := s.profiles.filter (fun p => p.id != pid),
    aiInfras := s.aiInfras.filter (fun c => c.profileId != pid),
    mlflows := s.mlflows.filter (fun c => c.profileId != pid),
    promptsCfgs := s.promptsCfgs.filter (fun c => c.profileId != pid),
    history := s.history.filter (fun h => h.profileId != pid),
    nextProfileId := s.nextProfileId }

/-- `ProfileService.delete_profile`, end to end. -/
def deleteProfile (s : Store) (pid : Int) (user : String) : Except PyErr Store :=
  match deleteProfileFlush s pid user with
  | .error e => .error e
  | .ok (s1, p) => .ok (cascadeDelete s1 p.id)

def mkSetDefaultHistory (pid : Int) (user : String) : HistoryEntry :=
  { profileId := pid, domain := "profile", action := "set_default",
    changedBy := user,
    changes := [("is_default", ChangeVal.vb false, ChangeVal.vb true)] }

/-- `ProfileService.set_default_profile`: early return when already
default, otherwise clear every flag, set the target, append history. -/
def setDefaultProfile (s : Store) (pid : Int) (user : String) :
    Except PyErr Store :=
  match findProfile s pid with
  | none => .error (.valueError s!"Profile {pid} not found")
  | some p =>
    if p.isDefault then .ok s
    else
      let profiles' := s.profiles.map (fun q =>
        if q.id == pid then { q with isDefault := true, updatedBy := user }
        else { q with isDefault := false })
      .ok { s with profiles := profiles',
                   history := s.history ++ [mkSetDefaultHistory pid user] }

/-- `ProfileService.duplicate_profile`: sugar for `create_profile` with
`copy_from_id` the source id. -/
def duplicateProfile (s : Store) (pid : Int) (newName user : String) :
    Except PyErr (Store × Int) :=
  createProfile s newName (some s!"Copy of profile {pid}") (some pid) user

/-! ### Operation sequences over the service -/

inductive Op where
  | create (name : String) (description : Option String)
      (copyFromId : Option Int) (user : String)
  | update (pid : Int) (name : Option String) (description : Option String)
      (user : String)
  | delete (pid : Int) (user : String)
  | setDefault (pid : Int) (user : String)
  | duplicate (pid : Int) (newName : String) (user : String)

/-- Run one service call; a raised exception rolls the transaction back,
leaving the store unchanged. -/
def applyOp (s : Store) : Op → Store
  | .create n d c u =>
    match createProfile s n d c u with
    | .ok (s', _) => s'
    | .error _ => s
  | .update pid n d u =>
    match updateProfile s pid n d u with
    | .ok s' => s'
    | .error _ => s
  | .delete pid u =>
    match deleteProfile s pid u with
    | .ok s' => s'
    | .error _ => s
  | .setDefault pid u =>
    match setDefaultProfile s pid u with
    | .ok s' => s'
    | .error _ => s
  | .duplicate pid nn u =>
    match duplicateProfile s pid nn u with
    | .ok (s', _) => s'
    | .error _ => s

def runOps (ops : List Op) : Store := ops.foldl applyOp emptyStore

/-- The default-uniqueness invariant: zero defaults exactly on the empty
store, one default otherwise. -/
def defaultOk (s : Store) : Prop :=
  countDefault s = if s.profiles = [] then 0 else 1

instance (s : Store) : Decidable (defaultOk s) := by
  unfold defaultOk; infer_instance

def idsOf (s : Store) : List Int := s.profiles.map (fun p => p.id)

/-- Primary-key well-formedness: profile ids are pairwise distinct and
below the id sequence. -/
def storeWF (s : Store) : Prop :=
  (idsOf s).Nodup ∧ ∀ p ∈ s.profiles, p.id < s.nextProfileId

instance (s : Store) : Decidable (storeWF s) := by
  unfold storeWF idsOf
  infer_instance

/-! ### ConfigService (src/services/config_service.py) -/

/-- Python `user or "system"`: `None` and the empty string both fall back. -/
def userOrSystem : Option String → String
  | none => "system"
  | some u => if u = "" then "system" else u

/-- `ConfigService.update_prompts_config`.  A changed `system_prompt` is
recorded as the placeholder `"..."`; a changed `user_prompt_template` is
recorded with its full old and new text.  The `ConfigPrompts` table has no
`slide_editing_instructions` column, so a non-`None` value for that
argument hits a missing attribute and raises before any redaction of it
could happen — its redaction line is dead code. -/
def updatePromptsConfig (s : Store) (pid : Int)
    (systemPrompt? slideEditingInstructions? userPromptTemplate? : Option String)
    (user? : Option String) : Except PyErr Store :=
  match findPrompts s pid with
  | none => .error (.valueError s!"Prompts settings not found for profile {pid}")
  | some cfg =>
    let spChange :=
      match systemPrompt? with
      | some sp => sp != cfg.systemPrompt
      | none => false
    if slideEditingInstructions?.isSome then .error .attributeError
    else
      let utChange :=
        match userPromptTemplate? with
        | some ut => ut != cfg.userPromptTemplate
        | none => false
      let changes : List (String × ChangeVal × ChangeVal) :=
        (if spChange then
           [("system_prompt", ChangeVal.vs "...", ChangeVal.vs "...")]
         else [])
        ++ (if utChange then
              [("user_prompt_template", ChangeVal.vs cfg.userPromptTemplate,
                ChangeVal.vs (userPromptTemplate?.getD ""))]
            else [])
      let cfg' : PromptsCfg :=
        { cfg with
            systemPrompt :=
              if spChange then systemPrompt?.getD "" else cfg.systemPrompt,
            userPromptTemplate :=
              if utChange then userPromptTemplate?.getD ""
              else cfg.userPromptTemplate }
      let hist :=
        if changes.isEmpty then s.history
        else s.history ++
          [{ profileId := pid, domain := "prompts", action := "update",
             changedBy := userOrSystem user?, changes := changes }]
      .ok { s with
              promptsCfgs :=
                s.promptsCfgs.map (fun c => if c.profileId == pid then cfg' else c),
              history := hist }

/-! ### Serving-boundary request schemas (src/api/schemas/settings/requests.py) -/

/-- Does the needle occur at the head of the haystack? -/
def startsWithSeq : List Char → List Char → Bool
  | [], _ => true
  | _ :: _, [] => false
  | n :: ns, h :: hs => n == h && startsWithSeq ns hs

/-- Substring search over character lists. -/
def containsSeq (needle : List Char) : List Char → Bool
  | [] => needle.isEmpty
  | c :: t => startsWithSeq needle (c :: t) || containsSeq needle t

/-- Python `needle in hay` for strings. -/
def strContainsSub (hay needle : String) : Bool :=
  containsSeq needle.data hay.data

/-- Python `str.strip()`: drop whitespace from both ends. -/
def pyStrip (s : String) : String :=
  ⟨((s.data.dropWhile Char.isWhitespace).reverse.dropWhile Char.isWhitespace).reverse⟩

/-- `ProfileCreate.name`: `min_length=1`, `max_length=100`, body validator
rejecting whitespace-only names and returning the stripped name. -/
def validateProfileCreateName (raw : String) : Option String :=
  if 1 ≤ raw.length && raw.length ≤ 100 && pyStrip raw != "" then
    some (pyStrip raw)
  else none

/-- `AIInfraConfigUpdate`: `llm_temperature` constrained to `ge=0.0, le=1.0`,
`llm_max_tokens` to `gt=0`; `llm_endpoint` unconstrained. -/
def aiInfraUpdateAccepts (llmEndpoint : Option String) (llmTemperature : Option Rat)
    (llmMaxTokens : Option Int) : Bool :=
  (match llmTemperature with
   | none => true
   | some t => decide (0 ≤ t) && decide (t ≤ 1))
  && (match llmMaxTokens with
      | none => true
      | some n => decide (0 < n))

/-- `PromptsConfigUpdate`: `user_prompt_template` must contain the literal
placeholder; `system_prompt` has no required placeholders. -/
def promptsUpdateAccepts (systemPrompt userPromptTemplate : Option String) : Bool :=
  match userPromptTemplate with
  | none => true
  | some t => strContainsSub t "{question}"

/-! ### Route layer for POST /profiles (src/api/routes/settings/profiles.py).
Pydantic request validation failing yields 422; the route maps `ValueError`
to 400 and any other exception — including `IntegrityError` from the unique
name constraint — to 500. -/

def createProfileRoute (s : Store) (rawName : String) (description : Option String)
    (copyFromProfileId : Option Int) : Nat × Store :=
  match validateProfileCreateName rawName with
  | none => (422, s)
  | some name =>
    match createProfile s name description copyFromProfileId "system" with
    | .ok (s', _) => (201, s')
    | .error (.valueError _) => (400, s)
    | .error _ => (500, s)

/-! ### Settings loader and cache (src/core/settings_db.py) -/

structure LLMSettingsM where
  endpoint : String
  temperature : Rat
  maxTokens : Int
deriving DecidableEq, Repr

/-- The resolved settings snapshot (database-backed fields of AppSettings). -/
structure AppSettingsM where
  profileId : Int
  profileName : String
  llm : LLMSettingsM
  experimentName : String
  systemPrompt : String
  userPromptTemplate : String
deriving DecidableEq, Repr

def usernamePat : List Char := "{username}".data

/-- Replace every occurrence of `{username}`; the fuel is an upper bound on
the number of characters consumed, so `length + 1` always suffices. -/
def replaceUsernameAux (username : List Char) : Nat → List Char → List Char
  | 0, l => l
  | _ + 1, [] => []
  | fuel + 1, c :: t =>
    if startsWithSeq usernamePat (c :: t) then
      username ++ replaceUsernameAux username fuel (List.drop usernamePat.length (c :: t))
    else c :: replaceUsernameAux username fuel t

/-- `experiment_name.format(username=username)` applied only when the
`{username}` placeholder occurs. -/
def replaceUsername (name username : String) : String :=
  if strContainsSub name "{username}" then
    ⟨replaceUsernameAux username.data (name.data.length + 1) name.data⟩
  else name

/-- `LLMSettings` field validators (temperature 0.0–2.0, max_tokens
1–64000). -/
def mkLLMSettings (endpoint : String) (t : Rat) (mt : Int) :
    Except PyErr LLMSettingsM :=
  if ¬ (0 ≤ t ∧ t ≤ 2) then
    .error (.valueError "Temperature must be between 0.0 and 2.0")
  else if mt < 1 ∨ mt > 64000 then
    .error (.valueError "max_tokens must be between 1 and 64000")
  else .ok ⟨endpoint, t, mt⟩

/-- The body of `load_settings_from_database` once the target profile is
fixed: each of the three sub-configs must be present or a `ValueError` is
raised; nothing partial is ever returned. -/
def resolveSettings (s : Store) (p : Profile) (username : String) :
    Except PyErr AppSettingsM :=
  match findAIInfra s p.id with
  | none => .error (.valueError s!"AI infra settings not found for profile {p.id}")
  | some ai =>
    match findMLflow s p.id with
    | none => .error (.valueError s!"MLflow settings not found for profile {p.id}")
    | some ml =>
      match findPrompts s p.id with
      | none => .error (.valueError s!"Prompts settings not found for profile {p.id}")
      | some pr =>
        match mkLLMSettings ai.llmEndpoint ai.llmTemperature ai.llmMaxTokens with
        | .error e => .error e
        | .ok llm =>
          .ok { profileId := p.id, profileName := p.name, llm := llm,
                experimentName := replaceUsername ml.experimentName username,
                systemPrompt := pr.systemPrompt,
                userPromptTemplate := pr.userPromptTemplate }

/-- `load_settings_from_database`: target priority specified > active >
default.  A missing active profile falls back to the default; when that is
also absent, the code dereferences `profile.id` on `None` and raises
`AttributeError`, not `ValueError`. -/
def loadSettingsFromDatabase (s : Store) (profileId? : Option Int)
    (activeProfileId : Option Int) (username : String) :
    Except PyErr AppSettingsM :=
  match profileId? with
  | some pid =>
    match findProfile s pid with
    | none => .error (.valueError s!"Profile {pid} not found")
    | some p => resolveSettings s p username
  | none =>
    match activeProfileId with
    | some aid =>
      match findProfile s aid with
      | some p => resolveSettings s p username
      | none =>
        match findDefaultProfile s with
        | some p => resolveSettings s p username
        | none => .error .attributeError
    | none =>
      match findDefaultProfile s with
      | some p => resolveSettings s p username
      | none => .error (.valueError "No default profile found in database")

/-- The process-wide mutable state of settings_db: the `lru_cache(maxsize=1)`
slot of `get_settings` and the module global `_active_profile_id`. -/
structure CacheState where
  cache : Option AppSettingsM
  activeProfileId : Option Int
deriving DecidableEq, Repr

/-- `get_settings`: return the cached snapshot if present, else load with no
explicit target and populate the cache; `lru_cache` does not cache a raised
exception, so on failure the cache slot stays empty. -/
def getSettingsSt (cs : CacheState) (s : Store) (username : String) :
    Except PyErr AppSettingsM × CacheState :=
  match cs.cache with
  | some snap => (.ok snap, cs)
  | none =>
    match loadSettingsFromDatabase s none cs.activeProfileId username with
    | .ok snap => (.ok snap, { cs with cache := some snap })
    | .error e => (.error e, cs)

/-- `reload_settings`: record the new active profile id (when given) before
clearing the cache, then force an immediate `get_settings`. -/
def reloadSettingsSt (cs : CacheState) (s : Store) (profileId? : Option Int)
    (username : String) : Except PyErr AppSettingsM × CacheState :=
  let cs1 :=
    match profileId? with
    | some pid => { cs with activeProfileId := some pid }
    | none => cs
  getSettingsSt { cs1 with cache := none } s username

/-! ### ChatService (src/api/services/chat_service.py) -/

/-- The only field `reload_agent` assigns: `self.current_profile_id`. -/
structure ChatServiceState where
  currentProfileId : Option Int
deriving DecidableEq, Repr

/-- `ChatService.reload_agent`: with a truthy profile id it calls
`load_settings_from_database(profile_id)` directly — touching neither the
`get_settings` cache nor `_active_profile_id` — and records the id on the
service; otherwise it goes through `get_settings`.  Any failure is
re-raised wrapped in `ValueError`, with `current_profile_id` untouched. -/
def reloadAgent (chat : ChatServiceState) (cs : CacheState) (s : Store)
    (profileId? : Option Int) (username : String) :
    Except PyErr AppSettingsM × CacheState × ChatServiceState :=
  if truthyId profileId? then
    match loadSettingsFromDatabase s profileId? cs.activeProfileId username with
    | .ok snap => (.ok snap, cs, { currentProfileId := profileId? })
    | .error _ =>
      (.error (.valueError "Failed to reload configuration"), cs, chat)
  else
    match getSettingsSt cs s username with
    | (.ok snap, cs') => (.ok snap, cs', { currentProfileId := some snap.profileId })
    | (.error _, cs') =>
      (.error (.valueError "Failed to reload configuration"), cs', chat)

/-! ### Basic lemmas about the store and the service operations -/

theorem findProfile_some {s : Store} {pid : Int} {p : Profile}
    (h : findProfile s pid = some p) : p ∈ s.profiles ∧ p.id = pid := by
  refine ⟨List.mem_of_find?_eq_some h, ?_⟩
  have hp := List.find?_some h
  simpa using hp

theorem any_isDefault_false_iff (s : Store) :
    (s.profiles.any fun p => p.isDefault) = false ↔ countDefault s = 0 := by
  simp [countDefault, List.countP_eq_zero, List.any_eq_false]

theorem createProfile_ok {s : Store} {n : String} {d : Option String}
    {c : Option Int} {u : String} {s' : Store} {pid : Int}
    (h : createProfile s n d c u = .ok (s', pid)) :
    pid = s.nextProfileId ∧
    s'.profiles = s.profiles ++ [mkNewProfile s n d u] ∧
    s'.nextProfileId = s.nextProfileId + 1 ∧
    s'.history = s.history ++ [mkCreateHistory s.nextProfileId n u] := by
  simp only [createProfile] at h
  split at h
  · exact absurd h (by simp)
  · split at h
    · exact absurd h (by simp)
    · rw [Except.ok.injEq, Prod.mk.injEq] at h
      obtain ⟨hs, hpid⟩ := h
      subst hs
      exact ⟨hpid.symm, rfl, rfl, rfl⟩

theorem updateProfile_ok {s : Store} {pid : Int} {n? d? : Option String}
    {u : String} {s' : Store} (h : updateProfile s pid n? d? u = .ok s') :
    ∃ p p' : Profile, findProfile s pid = some p ∧
      s'.profiles = s.profiles.map (fun q => if q.id == pid then p' else q) ∧
      p'.id = p.id ∧ p'.isDefault = p.isDefault ∧
      s'.nextProfileId = s.nextProfileId := by
  simp only [updateProfile] at h
  split at h
  · exact absurd h (by simp)
  case _ p hfind =>
    repeat' split at h
    all_goals first
      | exact Except.noConfusion h
      | (rw [Except.ok.injEq] at h; subst h;
         exact ⟨p, _, hfind, rfl, rfl, rfl, rfl⟩)

theorem deleteProfileFlush_ok {s : Store} {pid : Int} {u : String}
    {s1 : Store} {p : Profile} (h : deleteProfileFlush s pid u = .ok (s1, p)) :
    findProfile s pid = some p ∧ p.isDefault = false ∧
    s1 = { s with history := s.history ++ [mkDeleteHistory p u] } := by
  simp only [deleteProfileFlush] at h
  split at h
  · exact Except.noConfusion h
  case _ q hfind =>
    split at h
    · exact Except.noConfusion h
    case _ hdef =>
      rw [Except.ok.injEq, Prod.mk.injEq] at h
      obtain ⟨h1, h2⟩ := h
      subst h2
      exact ⟨hfind, by simpa using hdef, h1.symm⟩

theorem deleteProfile_ok {s : Store} {pid : Int} {u : String} {s' : Store}
    (h : deleteProfile s pid u = .ok s') :
    ∃ p : Profile, findProfile s pid = some p ∧ p.isDefault = false ∧
      s' = cascadeDelete s pid := by
  simp only [deleteProfile] at h
  rcases e : deleteProfileFlush s pid u with err | ⟨s1, p⟩
  · rw [e] at h; exact Except.noConfusion h
  · rw [e, Except.ok.injEq] at h
    obtain ⟨hfind, hdef, hs1⟩ := deleteProfileFlush_ok e
    obtain ⟨-, hid⟩ := findProfile_some hfind
    refine ⟨p, hfind, hdef, ?_⟩
    subst hs1
    rw [← h, hid]
    simp only [cascadeDelete]
    have hfilter : (s.history ++ [mkDeleteHistory p u]).filter
        (fun e => e.profileId != pid) =
        s.history.filter (fun e => e.profileId != pid) := by
      simp [List.filter_append, mkDeleteHistory, hid]
    simp [hfilter]

theorem setDefaultProfile_ok {s : Store} {pid : Int} {u : String} {s' : Store}
    (h : setDefaultProfile s pid u = .ok s') :
    s' = s ∨
    ∃ p : Profile, findProfile s pid = some p ∧ p.isDefault = false ∧
      s'.profiles = s.profiles.map (fun q =>
        if q.id == pid then { q with isDefault := true, updatedBy := u }
        else { q with isDefault := false }) ∧
      s'.nextProfileId = s.nextProfileId ∧
      s'.history = s.history ++ [mkSetDefaultHistory pid u] := by
  simp only [setDefaultProfile] at h
  split at h
  · exact absurd h (by simp)
  case _ p hfind =>
    split at h
    · left; rw [Except.ok.injEq] at h; exact h.symm
    case _ hdef =>
      right
      rw [Except.ok.injEq] at h
      subst h
      exact ⟨p, hfind, by simpa using hdef, rfl, rfl, rfl⟩

/-! ### Preservation of the default-uniqueness invariant (C1) -/

theorem preserves_createProfile {s : Store} {n : String} {d : Option String}
    {c : Option Int} {u : String} {s' : Store} {pid : Int}
    (hwf : storeWF s) (hdef : defaultOk s)
    (h : createProfile s n d c u = .ok (s', pid)) :
    storeWF s' ∧ defaultOk s' := by
  obtain ⟨-, hprof, hnext, -⟩ := createProfile_ok h
  obtain ⟨hnd, hlt⟩ := hwf
  constructor
  · constructor
    · rw [idsOf, hprof, List.map_append]
      rw [List.nodup_append]
      refine ⟨hnd, by simp [mkNewProfile], ?_⟩
      intro a ha hb
      simp only [idsOf] at hnd
      simp only [List.map_cons, List.map_nil, List.mem_singleton, mkNewProfile] at hb
      obtain ⟨q, hq, hqa⟩ := List.mem_map.mp ha
      have := hlt q hq
      omega
    · intro p hp
      rw [hprof] at hp
      rw [hnext]
      rcases List.mem_append.mp hp with hp | hp
      · have := hlt p hp; omega
      · simp only [List.mem_singleton] at hp
        subst hp
        simp [mkNewProfile]
  · have hcount : countDefault s' =
        countDefault s + (if (mkNewProfile s n d u).isDefault then 1 else 0) := by
      rw [countDefault, hprof, List.countP_append, List.countP_singleton]
      rfl
    have hne : s'.profiles ≠ [] := by
      rw [hprof]; simp
    rw [defaultOk, if_neg hne, hcount]
    rw [defaultOk] at hdef
    by_cases hnil : s.profiles = []
    · have h0 : countDefault s = 0 := by rw [countDefault, hnil]; rfl
      have hany : (s.profiles.any fun p => p.isDefault) = false := by
        rw [hnil]; rfl
      rw [h0]
      simp [mkNewProfile, hany]
    · rw [if_neg hnil] at hdef
      have hpos : 0 < s.profiles.countP (fun p => p.isDefault) := by
        have : countDefault s = 1 := hdef
        rw [countDefault] at this
        omega
      have hany : (s.profiles.any fun p => p.isDefault) = true := by
        rcases List.countP_pos_iff.mp hpos with ⟨a, ha, hpa⟩
        exact List.any_eq_true.mpr ⟨a, ha, hpa⟩
      rw [hdef]
      simp [mkNewProfile, hany]

theorem preserves_applyOp {s : Store} (op : Op)
    (hwf : storeWF s) (hdef : defaultOk s) :
    storeWF (applyOp s op) ∧ defaultOk (applyOp s op) := by
  cases op with
  | create n d c u =>
    rcases e : createProfile s n d c u with err | ⟨s', pid⟩
    · simpa [applyOp, e] using ⟨hwf, hdef⟩
    · have : applyOp s (.create n d c u) = s' := by simp [applyOp, e]
      rw [this]
      exact preserves_createProfile hwf hdef e
  | duplicate pid nn u =>
    rcases e : duplicateProfile s pid nn u with err | ⟨s', npid⟩
    · simpa [applyOp, e] using ⟨hwf, hdef⟩
    · have happ : applyOp s (.duplicate pid nn u) = s' := by simp [applyOp, e]
      rw [happ]
      exact preserves_createProfile hwf hdef e
  | update pid n d u =>
    rcases e : updateProfile s pid n d u with err | s'
    · simpa [applyOp, e] using ⟨hwf, hdef⟩
    · have happ : applyOp s (.update pid n d u) = s' := by simp [applyOp, e]
      rw [happ]
      obtain ⟨p, p', hfind, hprof, hid, hisdef, hnext⟩ := updateProfile_ok e
      obtain ⟨hmem, hpid⟩ := findProfile_some hfind
      obtain ⟨hnd, hlt⟩ := hwf
      have hinj := List.inj_on_of_nodup_map (f := fun q : Profile => q.id) hnd
      have hpoint : ∀ q ∈ s.profiles,
          ((if q.id == pid then p' else q).id = q.id ∧
           (if q.id == pid then p' else q).isDefault = q.isDefault) := by
        intro q hq
        by_cases hcase : q.id = pid
        · have hqp : q = p := hinj hq hmem (by rw [hcase, hpid])
          subst hqp
          simp [hcase, hid, hpid, hisdef]
        · simp [hcase]
      have hids : idsOf s' = idsOf s := by
        rw [idsOf, hprof, List.map_map, idsOf]
        exact List.map_congr_left (fun q hq => (hpoint q hq).1)
      constructor
      · refine ⟨by rw [hids]; exact hnd, ?_⟩
        intro q hq
        rw [hprof] at hq
        obtain ⟨r, hr, hrq⟩ := List.mem_map.mp hq
        rw [hnext, ← hrq]
        have h1 := (hpoint r hr).1
        calc (if r.id == pid then p' else r).id = r.id := h1
          _ < s.nextProfileId := hlt r hr
      · have hcnt : countDefault s' = countDefault s := by
          rw [countDefault, hprof, List.countP_map, countDefault]
          exact List.countP_congr (fun q hq => by
            simp only [Function.comp_apply, (hpoint q hq).2])
        rw [defaultOk, hcnt, hprof]
        simpa [List.map_eq_nil_iff] using hdef
  | delete pid u =>
    rcases e : deleteProfile s pid u with err | s'
    · simpa [applyOp, e] using ⟨hwf, hdef⟩
    · have happ : applyOp s (.delete pid u) = s' := by simp [applyOp, e]
      rw [happ]
      obtain ⟨p, hfind, hpdef, hs'⟩ := deleteProfile_ok e
      obtain ⟨hmem, hpid⟩ := findProfile_some hfind
      obtain ⟨hnd, hlt⟩ := hwf
      have hinj := List.inj_on_of_nodup_map (f := fun q : Profile => q.id) hnd
      subst hs'
      constructor
      · constructor
        · rw [idsOf]
          show ((s.profiles.filter fun q => q.id != pid).map fun q => q.id).Nodup
          exact List.Nodup.sublist
            (List.Sublist.map _ (List.filter_sublist _)) hnd
        · intro q hq
          have hq' := List.mem_of_mem_filter hq
          exact hlt q hq'
      · have hcnt : countDefault (cascadeDelete s pid) = countDefault s := by
          show ((s.profiles.filter fun q => q.id != pid).countP fun q => q.isDefault)
            = countDefault s
          rw [List.countP_filter, countDefault]
          apply List.countP_congr
          intro q hq
          by_cases hc : q.id = pid
          · have hqp : q = p := hinj hq hmem (by rw [hc, hpid])
            subst hqp
            simp [hpdef]
          · simp [hc]
        have h1 : countDefault s = 1 := by
          rw [defaultOk, if_neg (List.ne_nil_of_mem hmem)] at hdef
          exact hdef
        have hne : (cascadeDelete s pid).profiles ≠ [] := by
          have hpos : 0 < s.profiles.countP (fun q : Profile => q.isDefault) := by
            have h1' : s.profiles.countP (fun q : Profile => q.isDefault) = 1 := h1
            omega
          rcases List.countP_pos_iff.mp hpos with ⟨dp, hdmem, hddef⟩
          have hdp : dp ≠ p := by
            intro hh
            rw [hh, hpdef] at hddef
            cases hddef
          have hdid : dp.id ≠ pid :=
            fun hc => hdp (hinj hdmem hmem (by rw [hc, hpid]))
          have : dp ∈ (cascadeDelete s pid).profiles := by
            show dp ∈ s.profiles.filter fun q => q.id != pid
            exact List.mem_filter.mpr ⟨hdmem, by simpa using hdid⟩
          exact List.ne_nil_of_mem this
        rw [defaultOk, hcnt, if_neg hne, h1]
  | setDefault pid u =>
    rcases e : setDefaultProfile s pid u with err | s'
    · simpa [applyOp, e] using ⟨hwf, hdef⟩
    · have happ : applyOp s (.setDefault pid u) = s' := by simp [applyOp, e]
      rw [happ]
      rcases setDefaultProfile_ok e with hcase | ⟨p, hfind, hpdef, hprof, hnext, hhist⟩
      · subst hcase; exact ⟨hwf, hdef⟩
      · obtain ⟨hmem, hpid⟩ := findProfile_some hfind
        obtain ⟨hnd, hlt⟩ := hwf
        have hidpoint : ∀ q : Profile,
            (if q.id == pid then ({ q with isDefault := true, updatedBy := u } : Profile)
             else { q with isDefault := false }).id = q.id := by
          intro q
          by_cases hc : q.id = pid <;> simp [hc]
        have hdefpoint : ∀ q : Profile,
            (if q.id == pid then ({ q with isDefault := true, updatedBy := u } : Profile)
             else { q with isDefault := false }).isDefault = (q.id == pid) := by
          intro q
          by_cases hc : q.id = pid <;> simp [hc]
        have hids : idsOf s' = idsOf s := by
          rw [idsOf, hprof, List.map_map, idsOf]
          exact List.map_congr_left (fun q _ => hidpoint q)
        constructor
        · refine ⟨by rw [hids]; exact hnd, ?_⟩
          intro q hq
          rw [hprof] at hq
          obtain ⟨r, hr, hrq⟩ := List.mem_map.mp hq
          rw [hnext, ← hrq]
          calc _ = r.id := hidpoint r
            _ < s.nextProfileId := hlt r hr
        · have hcnt : countDefault s' =
              s.profiles.countP (fun q => q.id == pid) := by
            rw [countDefault, hprof, List.countP_map]
            exact List.countP_congr (fun q _ => by
              simp only [Function.comp_apply, hdefpoint q])
          have hone : s.profiles.countP (fun q => q.id == pid) = 1 := by
            have hmap : s.profiles.countP (fun q => q.id == pid) =
                (idsOf s).count pid := by
              rw [List.count_eq_countP, idsOf, List.countP_map]
              rfl
            rw [hmap]
            exact List.count_eq_one_of_mem hnd
              (by rw [idsOf]; exact List.mem_map.mpr ⟨p, hmem, hpid⟩)
          have hne : s'.profiles ≠ [] := by
            rw [hprof]
            simp only [ne_eq, List.map_eq_nil_iff]
            exact List.ne_nil_of_mem hmem
          rw [defaultOk, hcnt, hone, if_neg hne]

theorem emptyStore_wf : storeWF emptyStore := by
  constructor
  · simp [idsOf, emptyStore]
  · intro p hp
    simp [emptyStore] at hp

theorem emptyStore_defaultOk : defaultOk emptyStore := by
  simp [defaultOk, countDefault, emptyStore]

theorem runOps_wf_defaultOk (ops : List Op) :
    storeWF (runOps ops) ∧ defaultOk (runOps ops) := by
  suffices h : ∀ (l : List Op) (s : Store), storeWF s → defaultOk s →
      storeWF (l.foldl applyOp s) ∧ defaultOk (l.foldl applyOp s) by
    exact h ops emptyStore emptyStore_wf emptyStore_defaultOk
  intro l
  induction l with
  | nil => intro s hwf hdef; exact ⟨hwf, hdef⟩
  | cons op rest ih =>
    intro s hwf hdef
    obtain ⟨hwf', hdef'⟩ := preserves_applyOp op hwf hdef
    simpa [List.foldl_cons] using ih (applyOp s op) hwf' hdef'

/-- `!any is_default` is `countDefault = 0`, as a Bool computation. -/
theorem bang_any_isDefault (s : Store) :
    (!(s.profiles.any fun p => p.isDefault)) = decide (countDefault s = 0) := by
  cases hany : s.profiles.any fun p => p.isDefault
  · have h0 := (any_isDefault_false_iff s).mp hany
    simp [h0]
  · have hne : countDefault s ≠ 0 := by
      intro h0
      rw [← any_isDefault_false_iff s] at h0
      rw [hany] at h0
      cases h0
    simp [hne]

/-- The map performed by `set_default_profile` leaves exactly one default:
the target. -/
theorem countP_setDefault_map {s : Store} {pid : Int} {u : String} {p : Profile}
    (hwf : storeWF s) (hmem : p ∈ s.profiles) (hpid : p.id = pid) :
    ((s.profiles.map (fun q =>
        if q.id == pid then { q with isDefault := true, updatedBy := u }
        else { q with isDefault := false })).countP fun q => q.isDefault) = 1 := by
  obtain ⟨hnd, -⟩ := hwf
  have hdefpoint : ∀ q : Profile,
      (if q.id == pid then ({ q with isDefault := true, updatedBy := u } : Profile)
       else { q with isDefault := false }).isDefault = (q.id == pid) := by
    intro q
    by_cases hc : q.id = pid <;> simp [hc]
  rw [List.countP_map]
  have hcongr : s.profiles.countP
      ((fun q : Profile => q.isDefault) ∘ (fun q =>
        if q.id == pid then { q with isDefault := true, updatedBy := u }
        else { q with isDefault := false })) =
      s.profiles.countP (fun q => q.id == pid) :=
    List.countP_congr (fun q _ => by simp only [Function.comp_apply, hdefpoint q])
  rw [hcongr]
  have hmap : s.profiles.countP (fun q => q.id == pid) = (idsOf s).count pid := by
    rw [List.count_eq_countP, idsOf, List.countP_map]
    rfl
  rw [hmap]
  exact List.count_eq_one_of_mem hnd
    (by rw [idsOf]; exact List.mem_map.mpr ⟨p, hmem, hpid⟩)

/-- The store produced by a successful non-no-op `set_default_profile`. -/
def setDefaultResult (s : Store) (pid : Int) (user : String) : Store :=
  { s with
      profiles := s.profiles.map (fun q =>
        if q.id == pid then { q with isDefault := true, updatedBy := user }
        else { q with isDefault := false }),
      history := s.history ++ [mkSetDefaultHistory pid user] }

/-- Per-profile view of the default-flag assignment. -/
def defaultsMap (s : Store) : List (Int × Bool) :=
  s.profiles.map (fun p => (p.id, p.isDefault))

/-! ### Concrete stores used by the witnesses -/

def wProfileA : Profile :=
  { id := 1, name := "A", description := none, isDefault := true,
    createdBy := "u", updatedBy := "u" }

def wProfileB : Profile :=
  { id := 2, name := "B", description := some "second", isDefault := false,
    createdBy := "u", updatedBy := "u" }

def wAI (pid : Int) : AIInfra :=
  { profileId := pid, llmEndpoint := "ep", llmTemperature := 1,
    llmMaxTokens := 100 }

def wML (pid : Int) : MLflowCfg :=
  { profileId := pid, experimentName := "/exp" }

def wPR (pid : Int) : PromptsCfg :=
  { profileId := pid, systemPrompt := "sys", userPromptTemplate := "{question}" }

def wStore : Store :=
  { profiles := [wProfileA, wProfileB],
    aiInfras := [wAI 1, wAI 2],
    mlflows := [wML 1, wML 2],
    promptsCfgs := [wPR 1, wPR 2],
    history := [],
    nextProfileId := 3 }

/-! ### The claims -/

/-- C1: for every sequence of ProfileService operations starting from the
empty store, at every point the number of profiles with `is_default = true`
is exactly 0 — and that only when the store holds no profiles — or exactly
1.  Every intermediate point of a sequence is itself `runOps` of a prefix,
so quantifying over all operation lists covers every point. -/
theorem default_profile_invariant (ops : List Op) :
    countDefault (runOps ops) = if (runOps ops).profiles = [] then 0 else 1 :=
  (runOps_wf_defaultOk ops).2

/-- C2: `set_default_profile` on an existing profile is a strict no-op when
the profile is already the default (same store, hence no history entry and
unchanged flags); otherwise it clears `is_default` on every other profile,
sets it on the target, appends one `profile/set_default` history entry, and
leaves exactly one default. -/
theorem set_default_profile_spec (s : Store) (pid : Int) (user : String)
    (p : Profile) (hwf : storeWF s) (hfind : findProfile s pid = some p) :
    (p.isDefault = true → setDefaultProfile s pid user = .ok s) ∧
    (p.isDefault = false →
      setDefaultProfile s pid user = .ok (setDefaultResult s pid user) ∧
      countDefault (setDefaultResult s pid user) = 1) := by
  obtain ⟨hmem, hpid⟩ := findProfile_some hfind
  constructor
  · intro hp
    simp [setDefaultProfile, hfind, hp]
  · intro hp
    constructor
    · simp [setDefaultProfile, hfind, hp, setDefaultResult]
    · have h1 := countP_setDefault_map (u := user) hwf hmem hpid
      simpa [countDefault, setDefaultResult] using h1

theorem set_default_profile_spec_witness :
    (setDefaultProfile wStore 1 "bob" = .ok wStore) ∧
    setDefaultProfile wStore 2 "bob" = .ok (setDefaultResult wStore 2 "bob") ∧
    countDefault (setDefaultResult wStore 2 "bob") = 1 :=
  ⟨(set_default_profile_spec wStore 1 "bob" wProfileA (by decide) (by decide)).1
    (by decide),
   (set_default_profile_spec wStore 2 "bob" wProfileB (by decide) (by decide)).2
    (by decide)⟩

/-- C3: `delete_profile` on the default profile fails with the forbidden
error and changes nothing; on a non-default profile the `profile/delete`
history entry is present in the store at flush time — before the row
disappears — and the committed result removes the profile row together
with all its sub-config and history rows (the cascade), leaving every
other profile's rows intact. -/
theorem delete_profile_spec (s : Store) (pid : Int) (user : String)
    (p : Profile) (hfind : findProfile s pid = some p) :
    (p.isDefault = true →
      deleteProfile s pid user = .error (.valueError "Cannot delete default profile")) ∧
    (p.isDefault = false →
      deleteProfileFlush s pid user =
        .ok ({ s with history := s.history ++ [mkDeleteHistory p user] }, p) ∧
      deleteProfile s pid user = .ok (cascadeDelete s pid)) := by
  obtain ⟨hmem, hpid⟩ := findProfile_some hfind
  constructor
  · intro hp
    simp [deleteProfile, deleteProfileFlush, hfind, hp]
  · intro hp
    have hflush : deleteProfileFlush s pid user =
        .ok ({ s with history := s.history ++ [mkDeleteHistory p user] }, p) := by
      simp [deleteProfileFlush, hfind, hp]
    refine ⟨hflush, ?_⟩
    rw [deleteProfile, hflush]
    rw [Except.ok.injEq]
    rw [hpid]
    simp only [cascadeDelete]
    have hfilter : (s.history ++ [mkDeleteHistory p user]).filter
        (fun e => e.profileId != pid) =
        s.history.filter (fun e => e.profileId != pid) := by
      simp [List.filter_append, mkDeleteHistory, hpid]
    simp [hfilter]

theorem delete_profile_spec_witness :
    (deleteProfile wStore 1 "x" =
      .error (.valueError "Cannot delete default profile")) ∧
    deleteProfileFlush wStore 2 "x" =
      .ok ({ wStore with history := wStore.history ++ [mkDeleteHistory wProfileB "x"] },
           wProfileB) ∧
    deleteProfile wStore 2 "x" = .ok (cascadeDelete wStore 2) :=
  ⟨(delete_profile_spec wStore 1 "x" wProfileA (by decide)).1 (by decide),
   (delete_profile_spec wStore 2 "x" wProfileB (by decide)).2 (by decide)⟩

theorem createProfile_defaultsMap {s : Store} {n : String} {d : Option String}
    {c : Option Int} {u : String} {s' : Store} {pid : Int}
    (h : createProfile s n d c u = .ok (s', pid)) :
    defaultsMap s' = defaultsMap s ++
      [(s.nextProfileId, decide (countDefault s = 0))] := by
  obtain ⟨-, hprof, -, -⟩ := createProfile_ok h
  have hflag : (mkNewProfile s n d u).isDefault = decide (countDefault s = 0) :=
    bang_any_isDefault s
  rw [defaultsMap, hprof, List.map_append, List.map_cons, List.map_nil, hflag]
  rfl

/-- C6: the profile inserted by `create_profile` (and so by
`duplicate_profile`, which is sugar for it) carries `is_default = true`
exactly when the store held zero default profiles at call time, and the
flags of the profiles already present are never touched; `update_profile`
and `delete_profile` never change any surviving profile's flag.  Together
with C2 this makes `set_default_profile` the only other operation
assigning the flag. -/
theorem default_flag_assignment (s : Store) (hwf : storeWF s) :
    (∀ n d c u, defaultsMap (applyOp s (.create n d c u)) = defaultsMap s ∨
      defaultsMap (applyOp s (.create n d c u)) =
        defaultsMap s ++ [(s.nextProfileId, decide (countDefault s = 0))]) ∧
    (∀ pid n d u, defaultsMap (applyOp s (.update pid n d u)) = defaultsMap s) ∧
    (∀ pid u, defaultsMap (applyOp s (.delete pid u)) = defaultsMap s ∨
      defaultsMap (applyOp s (.delete pid u)) =
        (defaultsMap s).filter (fun e => e.1 != pid)) ∧
    (∀ pid nn u, defaultsMap (applyOp s (.duplicate pid nn u)) = defaultsMap s ∨
      defaultsMap (applyOp s (.duplicate pid nn u)) =
        defaultsMap s ++ [(s.nextProfileId, decide (countDefault s = 0))]) := by
  refine ⟨?_, ?_, ?_, ?_⟩
  · intro n d c u
    rcases e : createProfile s n d c u with err | ⟨s', npid⟩
    · left; simp [applyOp, e]
    · right
      have happ : applyOp s (.create n d c u) = s' := by simp [applyOp, e]
      rw [happ]
      exact createProfile_defaultsMap e
  · intro pid n d u
    rcases e : updateProfile s pid n d u with err | s'
    · simp [applyOp, e]
    · have happ : applyOp s (.update pid n d u) = s' := by simp [applyOp, e]
      rw [happ]
      obtain ⟨p, p', hfind, hprof, hid, hisdef, -⟩ := updateProfile_ok e
      obtain ⟨hmem, hpid⟩ := findProfile_some hfind
      obtain ⟨hnd, -⟩ := hwf
      have hinj := List.inj_on_of_nodup_map (f := fun q : Profile => q.id) hnd
      rw [defaultsMap, hprof, List.map_map, defaultsMap]
      apply List.map_congr_left
      intro q hq
      by_cases hc : q.id = pid
      · have hqp : q = p := hinj hq hmem (by rw [hc, hpid])
        subst hqp
        simp [Function.comp, hc, hid, hisdef]
      · simp [Function.comp, hc]
  · intro pid u
    rcases e : deleteProfile s pid u with err | s'
    · left; simp [applyOp, e]
    · right
      have happ : applyOp s (.delete pid u) = s' := by simp [applyOp, e]
      rw [happ]
      obtain ⟨p, hfind, hpdef, hs'⟩ := deleteProfile_ok e
      subst hs'
      show ((s.profiles.filter fun q => q.id != pid).map fun p => (p.id, p.isDefault))
        = (defaultsMap s).filter fun e => e.1 != pid
      rw [defaultsMap, List.filter_map]
      rfl
  · intro pid nn u
    rcases e : duplicateProfile s pid nn u with err | ⟨s', npid⟩
    · left; simp [applyOp, e]
    · right
      have happ : applyOp s (.duplicate pid nn u) = s' := by simp [applyOp, e]
      rw [happ]
      rw [duplicateProfile] at e
      exact createProfile_defaultsMap e

theorem default_flag_assignment_witness :
    (defaultsMap (applyOp wStore (.create "C" none none "u")) = defaultsMap wStore ∨
      defaultsMap (applyOp wStore (.create "C" none none "u")) =
        defaultsMap wStore ++ [(wStore.nextProfileId, decide (countDefault wStore = 0))]) ∧
    defaultsMap (applyOp wStore (.update 2 (some "B2") none "u")) = defaultsMap wStore ∧
    (defaultsMap (applyOp wStore (.delete 2 "u")) = defaultsMap wStore ∨
      defaultsMap (applyOp wStore (.delete 2 "u")) =
        (defaultsMap wStore).filter (fun e => e.1 != 2)) ∧
    (defaultsMap (applyOp wStore (.duplicate 1 "A2" "u")) = defaultsMap wStore ∨
      defaultsMap (applyOp wStore (.duplicate 1 "A2" "u")) =
        defaultsMap wStore ++ [(wStore.nextProfileId, decide (countDefault wStore = 0))]) :=
  have h := default_flag_assignment wStore (by decide)
  ⟨h.1 "C" none none "u", h.2.1 2 (some "B2") none "u",
   h.2.2.1 2 "u", h.2.2.2 1 "A2" "u"⟩

/-- `ProfileService.get_profile` with its eagerly loaded sub-configs. -/
def getProfileDetail (s : Store) (pid : Int) :
    Option (Profile × Option AIInfra × Option MLflowCfg × Option PromptsCfg) :=
  match findProfile s pid with
  | none => none
  | some p => some (p, findAIInfra s pid, findMLflow s pid, findPrompts s pid)

/-- C5 (code bug): an empty or whitespace-only name is rejected by the
request schema (422, a 400-class validation failure) with nothing created,
but a name colliding with an existing profile raises `IntegrityError` at
flush, which the route's `except ValueError` does not catch: the call is
surfaced as HTTP 500, not as a 400-class validation failure.  The store is
unchanged in every failing case. -/
theorem create_profile_name_validation :
    createProfileRoute wStore "A" none none = (500, wStore) ∧
    createProfileRoute wStore "" none none = (422, wStore) ∧
    createProfileRoute wStore "   " none none = (422, wStore) := by
  refine ⟨?_, by decide, by decide⟩
  decide

/-- C7 counterexample: `copy_from_id = 0` refers to no existing profile,
yet `create_profile` does not fail with NotFound — Python truthiness sends
`0` down the defaults branch and a profile is created. -/
theorem create_profile_copy_zero_counterexample :
    findProfile emptyStore 0 = none ∧
    (createProfile emptyStore "A" none (some 0) "u").isOk = true :=
  ⟨rfl, rfl⟩

/-- C7 (amended): for a nonzero `copy_from_id`, distinct from the id the
new row is about to take, that names no profile, `create_profile` fails
with the NotFound `ValueError` and creates nothing; for an existing source
profile the new profile's three sub-configs are verbatim clones, so
`get_profile` on the new id returns exactly the source sub-config values.
Two edge cases diverge from NotFound: `copy_from_id = 0` is falsy and
silently takes the defaults branch (per the counterexample), and
`copy_from_id = nextProfileId` — also naming no existing profile at call
time — finds the just-flushed new row as its own copy source and raises
`AttributeError` on its missing sub-configs. -/
theorem create_profile_copy_spec (s : Store) (x : Int) (nm : String)
    (d : Option String) (u : String)
    (hwf : storeWF s) (hx : x ≠ 0)
    (hname : (s.profiles.all fun p => p.name != nm) = true)
    (hfa : (s.aiInfras.all fun cfg => cfg.profileId != s.nextProfileId) = true)
    (hfm : (s.mlflows.all fun cfg => cfg.profileId != s.nextProfileId) = true)
    (hfp : (s.promptsCfgs.all fun cfg => cfg.profileId != s.nextProfileId) = true) :
    (findProfile s x = none → x ≠ s.nextProfileId →
      createProfile s nm d (some x) u =
        .error (.valueError s!"Source profile {x} not found")) ∧
    (∀ px a m pr, findProfile s x = some px → findAIInfra s x = some a →
      findMLflow s x = some m → findPrompts s x = some pr →
      (createProfile s nm d (some x) u).map
          (fun r => getProfileDetail r.1 s.nextProfileId) =
        .ok (some (mkNewProfile s nm d u,
          some (cloneSubConfigs s.nextProfileId a m pr).1,
          some (cloneSubConfigs s.nextProfileId a m pr).2.1,
          some (cloneSubConfigs s.nextProfileId a m pr).2.2))) ∧
    (x = s.nextProfileId →
      createProfile s nm d (some x) u = .error .attributeError) := by
  obtain ⟨-, hlt⟩ := hwf
  have hanyname : (s.profiles.any fun p => p.name == nm) = false := by
    rw [List.any_eq_false]
    intro p hp
    have := List.all_eq_true.mp hname p hp
    simpa using this
  have hfresh : s.profiles.find? (fun p => p.id == s.nextProfileId) = none := by
    rw [List.find?_eq_none]
    intro q hq
    have := hlt q hq
    simp
    omega
  have hfa' : s.aiInfras.find? (fun cfg => cfg.profileId == s.nextProfileId) = none := by
    rw [List.find?_eq_none]
    intro q hq
    have := List.all_eq_true.mp hfa q hq
    simpa using this
  have hfm' : s.mlflows.find? (fun cfg => cfg.profileId == s.nextProfileId) = none := by
    rw [List.find?_eq_none]
    intro q hq
    have := List.all_eq_true.mp hfm q hq
    simpa using this
  have hfp' : s.promptsCfgs.find? (fun cfg => cfg.profileId == s.nextProfileId) = none := by
    rw [List.find?_eq_none]
    intro q hq
    have := List.all_eq_true.mp hfp q hq
    simpa using this
  refine ⟨?_, ?_, ?_⟩
  · intro hnone hneq
    have hfind1 : s.profiles.find? (fun p => p.id == x) = none := hnone
    simp [createProfile, hanyname, truthyId, hx, findProfile, List.find?_append,
      hfind1, mkNewProfile, Ne.symm hneq]
  · intro px a m pr hsrc ha hm hp
    obtain ⟨hpxmem, hpxid⟩ := findProfile_some hsrc
    have hfind1 : s.profiles.find? (fun p => p.id == x) = some px := hsrc
    have ha2 : s.aiInfras.find? (fun c => c.profileId == x) = some a := ha
    have hm2 : s.mlflows.find? (fun c => c.profileId == x) = some m := hm
    have hp2 : s.promptsCfgs.find? (fun c => c.profileId == x) = some pr := hp
    simp [createProfile, hanyname, truthyId, hx, findProfile, List.find?_append,
      hfind1, hpxid, ha2, hm2, hp2, findAIInfra, findMLflow, findPrompts,
      getProfileDetail, hfresh, hfa', hfm', hfp', mkNewProfile, Except.map,
      cloneSubConfigs]
  · intro hxe
    subst hxe
    simp [createProfile, hanyname, truthyId, hx, findProfile, List.find?_append,
      hfresh, mkNewProfile, findAIInfra, findMLflow, findPrompts,
      hfa', hfm', hfp']

theorem create_profile_copy_spec_witness :
    (createProfile wStore "C" none (some 9) "u" =
      .error (.valueError "Source profile 9 not found")) ∧
    (createProfile wStore "C" none (some 2) "u").map
        (fun r => getProfileDetail r.1 wStore.nextProfileId) =
      .ok (some (mkNewProfile wStore "C" none "u",
        some (cloneSubConfigs wStore.nextProfileId (wAI 2) (wML 2) (wPR 2)).1,
        some (cloneSubConfigs wStore.nextProfileId (wAI 2) (wML 2) (wPR 2)).2.1,
        some (cloneSubConfigs wStore.nextProfileId (wAI 2) (wML 2) (wPR 2)).2.2)) ∧
    createProfile wStore "C" none (some 3) "u" = .error .attributeError := by
  have h := create_profile_copy_spec wStore 9 "C" none "u" (by decide) (by decide)
    (by decide) (by decide) (by decide) (by decide)
  have h2 := create_profile_copy_spec wStore 2 "C" none "u" (by decide) (by decide)
    (by decide) (by decide) (by decide) (by decide)
  have h3 := create_profile_copy_spec wStore 3 "C" none "u" (by decide) (by decide)
    (by decide) (by decide) (by decide) (by decide)
  exact ⟨h.1 (by decide) (by decide),
    h2.2.1 wProfileB (wAI 2) (wML 2) (wPR 2) (by decide) (by decide) (by decide)
      (by decide),
    h3.2.2 (by decide)⟩

/-- C4 counterexample: a `user_prompt_template` change is recorded in the
history entry with the full old and new text, not a placeholder. -/
theorem update_prompts_fulltext_counterexample :
    (updatePromptsConfig wStore 1 none none (some "Q: {question}") (some "bob")).map
        (fun s' => s'.history.map (fun e => e.changes)) =
      .ok [[("user_prompt_template", ChangeVal.vs "{question}",
             ChangeVal.vs "Q: {question}")]] := by
  decide

/-- C4 (amended): in `update_prompts_config` a changed `system_prompt` is
redacted in the history entry to the placeholder `"..."` for both old and
new values, but a changed `user_prompt_template` is stored with its full
old and new text; so the full prompt text can appear in the history
record after all. -/
theorem update_prompts_config_redaction (s : Store) (pid : Int)
    (cfg : PromptsCfg) (sp ut : String) (user? : Option String)
    (hfind : findPrompts s pid = some cfg)
    (hsp : sp ≠ cfg.systemPrompt) (hut : ut ≠ cfg.userPromptTemplate) :
    (updatePromptsConfig s pid (some sp) none (some ut) user?).map
        (fun s' => s'.history) =
      .ok (s.history ++
        [{ profileId := pid, domain := "prompts", action := "update",
           changedBy := userOrSystem user?,
           changes := [("system_prompt", ChangeVal.vs "...", ChangeVal.vs "..."),
                       ("user_prompt_template", ChangeVal.vs cfg.userPromptTemplate,
                        ChangeVal.vs ut)] }]) := by
  have h1 : (sp != cfg.systemPrompt) = true := by simpa using hsp
  have h2 : (ut != cfg.userPromptTemplate) = true := by simpa using hut
  simp [updatePromptsConfig, hfind, h1, h2, Except.map]

theorem update_prompts_config_redaction_witness :
    (updatePromptsConfig wStore 1 (some "sys2") none (some "Q: {question}")
        (some "bob")).map (fun s' => s'.history) =
      .ok (wStore.history ++
        [{ profileId := 1, domain := "prompts", action := "update",
           changedBy := userOrSystem (some "bob"),
           changes := [("system_prompt", ChangeVal.vs "...", ChangeVal.vs "..."),
                       ("user_prompt_template", ChangeVal.vs "{question}",
                        ChangeVal.vs "Q: {question}")] }]) :=
  update_prompts_config_redaction wStore 1 (wPR 1) "sys2" "Q: {question}"
    (some "bob") (by decide) (by decide) (by decide)

/-- C8 counterexample: with an active profile id set to a missing profile
and no default profile, resolution dereferences `profile.id` on `None` and
raises `AttributeError`, not the ConfigurationError `ValueError` the claim
requires. -/
theorem settings_resolution_attributeerror_counterexample :
    loadSettingsFromDatabase emptyStore none (some 7) "u" =
      .error .attributeError := by
  decide

/-- C8 (amended): resolution failure never yields a settings object and
never populates the cache, and every success is fully sourced from one
profile's three sub-configs (never partial).  A missing explicit target,
a missing default with no active id, and a missing sub-config all fail
with the ConfigurationError `ValueError`; the one exception is an active
profile id naming a missing profile when the default is also missing,
which crashes with `AttributeError` (and a missing active profile with an
existing default silently falls back to the default instead of failing). -/
theorem settings_resolution_spec (s : Store) (act : Option Int)
    (username : String) :
    (∀ pid, findProfile s pid = none →
      loadSettingsFromDatabase s (some pid) act username =
        .error (.valueError s!"Profile {pid} not found")) ∧
    (findDefaultProfile s = none →
      loadSettingsFromDatabase s none none username =
        .error (.valueError "No default profile found in database")) ∧
    (∀ aid, act = some aid → findProfile s aid = none →
      findDefaultProfile s = none →
      loadSettingsFromDatabase s none act username = .error .attributeError) ∧
    (∀ pid p, findProfile s pid = some p →
      loadSettingsFromDatabase s (some pid) act username =
        resolveSettings s p username) ∧
    (∀ p, findAIInfra s p.id = none →
      resolveSettings s p username =
        .error (.valueError s!"AI infra settings not found for profile {p.id}")) ∧
    (∀ p ai, findAIInfra s p.id = some ai → findMLflow s p.id = none →
      resolveSettings s p username =
        .error (.valueError s!"MLflow settings not found for profile {p.id}")) ∧
    (∀ p ai ml, findAIInfra s p.id = some ai → findMLflow s p.id = some ml →
      findPrompts s p.id = none →
      resolveSettings s p username =
        .error (.valueError s!"Prompts settings not found for profile {p.id}")) ∧
    (∀ p snap, resolveSettings s p username = .ok snap →
      ∃ ai ml pr, findAIInfra s p.id = some ai ∧ findMLflow s p.id = some ml ∧
        findPrompts s p.id = some pr ∧
        snap.profileId = p.id ∧ snap.profileName = p.name ∧
        snap.llm.endpoint = ai.llmEndpoint ∧
        snap.llm.temperature = ai.llmTemperature ∧
        snap.llm.maxTokens = ai.llmMaxTokens ∧
        snap.experimentName = replaceUsername ml.experimentName username ∧
        snap.systemPrompt = pr.systemPrompt ∧
        snap.userPromptTemplate = pr.userPromptTemplate) ∧
    (∀ e, loadSettingsFromDatabase s none act username = .error e →
      getSettingsSt ⟨none, act⟩ s username = (.error e, ⟨none, act⟩)) := by
  refine ⟨?_, ?_, ?_, ?_, ?_, ?_, ?_, ?_, ?_⟩
  · intro pid h
    simp [loadSettingsFromDatabase, h]
  · intro h
    simp [loadSettingsFromDatabase, h]
  · intro aid hact h hd
    subst hact
    simp [loadSettingsFromDatabase, h, hd]
  · intro pid p h
    simp [loadSettingsFromDatabase, h]
  · intro p h
    simp [resolveSettings, h]
  · intro p ai h1 h2
    simp [resolveSettings, h1, h2]
  · intro p ai ml h1 h2 h3
    simp [resolveSettings, h1, h2, h3]
  · intro p snap h
    simp only [resolveSettings] at h
    split at h
    · exact Except.noConfusion h
    case _ ai hai =>
      split at h
      · exact Except.noConfusion h
      case _ ml hml =>
        split at h
        · exact Except.noConfusion h
        case _ pr hpr =>
          split at h
          · exact Except.noConfusion h
          case _ llm hllm =>
            rw [Except.ok.injEq] at h
            subst h
            refine ⟨ai, ml, pr, hai, hml, hpr, rfl, rfl, ?_, ?_, ?_, rfl, rfl, rfl⟩
            all_goals
              simp only [mkLLMSettings] at hllm
              split at hllm
              · exact Except.noConfusion hllm
              · split at hllm
                · exact Except.noConfusion hllm
                · rw [Except.ok.injEq] at hllm
                  subst hllm
                  rfl
  · intro e h
    simp [getSettingsSt, h]

theorem settings_resolution_spec_witness :
    (loadSettingsFromDatabase wStore (some 9) none "u" =
      .error (.valueError "Profile 9 not found")) ∧
    (loadSettingsFromDatabase emptyStore none none "u" =
      .error (.valueError "No default profile found in database")) ∧
    (loadSettingsFromDatabase emptyStore none (some 9) "u" =
      .error .attributeError) ∧
    resolveSettings emptyStore wProfileA "u" =
      .error (.valueError "AI infra settings not found for profile 1") ∧
    getSettingsSt ⟨none, none⟩ emptyStore "u" =
      (.error (.valueError "No default profile found in database"), ⟨none, none⟩) :=
  have h := settings_resolution_spec wStore none "u"
  have he := settings_resolution_spec emptyStore none "u"
  have ha := settings_resolution_spec emptyStore (some 9) "u"
  ⟨h.1 9 (by decide), he.2.1 (by decide),
   ha.2.2.1 9 rfl (by decide) (by decide),
   he.2.2.2.2.1 wProfileA (by decide),
   he.2.2.2.2.2.2.2.2 (.valueError "No default profile found in database")
     (by decide)⟩

/-- C9: the serving-boundary update schemas accept exactly the domain
constraints: temperature within [0, 1], max tokens strictly positive, and
a user prompt template containing the literal placeholder; in particular
1.0 / 1 pass while 1.01 / 0 fail, and a template lacking the placeholder
fails while one containing it passes. -/
theorem update_schema_validation :
    (∀ t : Rat, aiInfraUpdateAccepts none (some t) none = true ↔ 0 ≤ t ∧ t ≤ 1) ∧
    (∀ n : Int, aiInfraUpdateAccepts none none (some n) = true ↔ 0 < n) ∧
    (∀ u : String, promptsUpdateAccepts none (some u) = true ↔
      strContainsSub u "{question}" = true) ∧
    aiInfraUpdateAccepts none (some 1) none = true ∧
    aiInfraUpdateAccepts none (some (101 / 100)) none = false ∧
    aiInfraUpdateAccepts none none (some 0) = false ∧
    aiInfraUpdateAccepts none none (some 1) = true ∧
    promptsUpdateAccepts none (some "Answer: {question}") = true ∧
    promptsUpdateAccepts none (some "Answer:") = false := by
  refine ⟨?_, ?_, ?_, ?_, ?_, ?_, ?_, ?_, ?_⟩
  · intro t; simp [aiInfraUpdateAccepts]
  · intro n; simp [aiInfraUpdateAccepts]
  · intro u; simp [promptsUpdateAccepts]
  · simp [aiInfraUpdateAccepts]
  · simp [aiInfraUpdateAccepts]
    norm_num
  · simp [aiInfraUpdateAccepts]
  · simp [aiInfraUpdateAccepts]
  · decide
  · decide

theorem update_schema_validation_witness :
    aiInfraUpdateAccepts none (some (1 / 2)) none = true ∧
    aiInfraUpdateAccepts none none (some 7) = true :=
  ⟨(update_schema_validation.1 (1 / 2)).mpr (by norm_num),
   (update_schema_validation.2.1 7).mpr (by norm_num)⟩

/-- C10: `reload_agent` with a (truthy) profile id loads and returns a
fresh settings snapshot for that profile and assigns only the service's
own `current_profile_id`; the `get_settings` cache slot and the module
global `_active_profile_id` are untouched, so a subsequent `get_settings`
still returns the previously cached snapshot. -/
theorem reload_agent_frame (chat : ChatServiceState) (cs : CacheState)
    (s : Store) (pid : Int) (username : String) (snap old : AppSettingsM)
    (hpid : pid ≠ 0)
    (hcache : cs.cache = some old)
    (hload : loadSettingsFromDatabase s (some pid) cs.activeProfileId username =
      .ok snap) :
    reloadAgent chat cs s (some pid) username = (.ok snap, cs, ⟨some pid⟩) ∧
    getSettingsSt cs s username = (.ok old, cs) := by
  constructor
  · simp [reloadAgent, truthyId, hpid, hload]
  · simp [getSettingsSt, hcache]

def wSnapA : AppSettingsM :=
  { profileId := 1, profileName := "A",
    llm := { endpoint := "ep", temperature := 1, maxTokens := 100 },
    experimentName := "/exp", systemPrompt := "sys",
    userPromptTemplate := "{question}" }

def wSnapB : AppSettingsM :=
  { profileId := 2, profileName := "B",
    llm := { endpoint := "ep", temperature := 1, maxTokens := 100 },
    experimentName := "/exp", systemPrompt := "sys",
    userPromptTemplate := "{question}" }

theorem reload_agent_frame_witness :
    reloadAgent ⟨none⟩ ⟨some wSnapA, none⟩ wStore (some 2) "u" =
      (.ok wSnapB, ⟨some wSnapA, none⟩, ⟨some 2⟩) ∧
    getSettingsSt ⟨some wSnapA, none⟩ wStore "u" =
      (.ok wSnapA, ⟨some wSnapA, none⟩) :=
  reload_agent_frame ⟨none⟩ ⟨some wSnapA, none⟩ wStore 2 "u" wSnapB wSnapA
    (by decide) rfl (by decide)

end DBApp
